import Mathlib

/-!
Verification of the jt-mqtt gateway (JT/T 808-2013 → MQTT converter).

Shallow embedding of the Python sources:
  * `src/jt808/utils.py`   — checksum, escape/unescape rules;
  * `src/jt808/message.py` — `Message.encode` / `Message.decode`;
  * `src/converter.py`     — buffer extraction, dispatch, general response,
    registration / status / location publish gates.

Bytes are modelled as `List Nat` (each element a byte value); wall-clock
times and distances as `ℚ`; Python strings as `String`.
-/

namespace JT808

/-- From `utils.calculate_checksum`: XOR fold over every byte. -/
def calculate_checksum (data : List Nat) : Nat :=
  data.foldl (fun acc b => acc ^^^ b) 0

/-- From `utils.apply_escape_rules`: 0x7e ↦ 0x7d 0x02, 0x7d ↦ 0x7d 0x01,
every other byte is copied unchanged. -/
def apply_escape_rules : List Nat → List Nat
  | [] => []
  | b :: rest =>
      (if b = 0x7e then [0x7d, 0x02]
       else if b = 0x7d then [0x7d, 0x01]
       else [b]) ++ apply_escape_rules rest

/-- From `utils.remove_escape_rules` (the loop at lines 114–129): a 0x7d
followed by 0x02 yields 0x7e, a 0x7d followed by 0x01 yields 0x7d; a 0x7d
followed by anything else — or standing last (`i + 1 < len` fails) — is
copied through and the following byte is then processed independently.
The function is total: it never rejects its input. -/
def remove_escape_rules : List Nat → List Nat
  | [] => []
  | [b] => [b]
  | b :: b2 :: rest =>
      if b = 0x7d then
        if b2 = 0x02 then 0x7e :: remove_escape_rules rest
        else if b2 = 0x01 then 0x7d :: remove_escape_rules rest
        else b :: remove_escape_rules (b2 :: rest)
      else b :: remove_escape_rules (b2 :: rest)

/-- The per-byte substitution of the escape rules, as the spec states it. -/
def escByte (b : Nat) : List Nat :=
  if b = 0x7e then [0x7d, 0x02]
  else if b = 0x7d then [0x7d, 0x01]
  else [b]

lemma apply_escape_rules_eq_flatMap (b : List Nat) :
    apply_escape_rules b = b.flatMap escByte := by
  induction b with
  | nil => rfl
  | cons x rest ih =>
      simp only [apply_escape_rules, List.flatMap_cons, escByte, ih]

lemma remove_cons_of_ne (x : Nat) (hx : x ≠ 0x7d) (L : List Nat) :
    remove_escape_rules (x :: L) = x :: remove_escape_rules L := by
  cases L <;> simp [remove_escape_rules, hx]

lemma remove_apply_escape (b : List Nat) :
    remove_escape_rules (apply_escape_rules b) = b := by
  induction b with
  | nil => rfl
  | cons x rest ih =>
      by_cases h7e : x = 0x7e
      · subst h7e
        simp [apply_escape_rules, remove_escape_rules, ih]
      · by_cases h7d : x = 0x7d
        · subst h7d
          simp [apply_escape_rules, remove_escape_rules, ih, h7e]
        · simp only [apply_escape_rules, if_neg h7e, if_neg h7d,
            List.cons_append, List.nil_append]
          rw [remove_cons_of_ne x h7d, ih]

lemma apply_escape_no_7e (b : List Nat) :
    ∀ x ∈ apply_escape_rules b, x ≠ 0x7e := by
  induction b with
  | nil => intro x hx; simp [apply_escape_rules] at hx
  | cons y rest ih =>
      intro x hx
      simp only [apply_escape_rules, List.mem_append] at hx
      rcases hx with hx | hx
      · by_cases h1 : y = 0x7e
        · rw [if_pos h1] at hx
          simp only [List.mem_cons, List.not_mem_nil, or_false] at hx
          rcases hx with rfl | rfl <;> decide
        · rw [if_neg h1] at hx
          by_cases h2 : y = 0x7d
          · rw [if_pos h2] at hx
            simp only [List.mem_cons, List.not_mem_nil, or_false] at hx
            rcases hx with rfl | rfl <;> decide
          · rw [if_neg h2] at hx
            simp only [List.mem_cons, List.not_mem_nil, or_false] at hx
            subst hx; exact h1
      · exact ih x hx

/-- **C9.** For every byte sequence `b`, `unescape (escape b) = b`; the
escaped output contains no 0x7e byte; and `escape` is exactly the per-byte
substitution 0x7e ↦ 0x7d 0x02, 0x7d ↦ 0x7d 0x01, identity elsewhere
(`src/jt808/utils.py`, `apply_escape_rules` / `remove_escape_rules`). -/
theorem C9_escape_roundtrip (b : List Nat) :
    remove_escape_rules (apply_escape_rules b) = b ∧
    (∀ x ∈ apply_escape_rules b, x ≠ 0x7e) ∧
    apply_escape_rules b = b.flatMap escByte :=
  ⟨remove_apply_escape b, apply_escape_no_7e b, apply_escape_rules_eq_flatMap b⟩

/-- **C10.** `remove_escape_rules` is total and never rejects a malformed
escape: a 0x7d followed by a byte other than 0x01/0x02 is copied through
unchanged (the follower is processed independently), and a 0x7d that is the
final byte is copied through (`src/jt808/utils.py` lines 114–133). -/
theorem C10_unescape_total :
    (∀ (b : Nat) (rest : List Nat), b ≠ 0x01 → b ≠ 0x02 →
      remove_escape_rules (0x7d :: b :: rest) =
        0x7d :: remove_escape_rules (b :: rest)) ∧
    remove_escape_rules [0x7d] = [0x7d] := by
  constructor
  · intro b rest h1 h2
    simp [remove_escape_rules, h1, h2]
  · rfl

/-- Witness for C10 at a concrete input. -/
theorem C10_unescape_total_witness :
    remove_escape_rules [0x7d, 0x41, 0x7e] =
      0x7d :: remove_escape_rules [0x41, 0x7e] :=
  C10_unescape_total.1 0x41 [0x7e] (by decide) (by decide)

/-! ## Message codec (`src/jt808/message.py`) -/

/-- Big-endian 16-bit pack (`struct.pack '>H'`), for values below 2^16. -/
def u16be (n : Nat) : List Nat :=
  [n / 256 % 256, n % 256]

/-- Big-endian 16-bit read at offset `i` (`struct.unpack '>H'`); out-of-range
positions read 0 (never reached on the guarded paths). -/
def readU16 (l : List Nat) (i : Nat) : Nat :=
  l.getD i 0 * 256 + l.getD (i + 1) 0

/-- In-memory form of `message.Message`: `phone_no` is always held as a
string (constructor lines 40–47), `body` as bytes. -/
structure Message where
  msg_id : Nat
  phone_no : String
  body : List Nat
  msg_serial_no : Nat
  is_subpackage : Bool
  encrypted : Bool
  subpackage_info : Option (Nat × Nat)
  deriving DecidableEq, Repr

/-- `Message.get_body_attr`: bits 0–9 body length, bit 10 encryption,
bit 13 sub-package. -/
def get_body_attr (m : Message) : Nat :=
  (m.body.length ||| (if m.encrypted then 0x400 else 0)) |||
    (if m.is_subpackage then 0x2000 else 0)

/-- The phone-number normalisation of `Message.encode` (lines 76–97) on its
all-digits path: longer than 12 characters keeps the last 12
(`phone_str[-12:]`), shorter is left-padded with `'0'` (`zfill(12)`).
The non-digit fallback (regex digit extraction, random fallback id) is not
modelled; every claim concerns decimal device ids. -/
def phone_str12 (s : String) : List Char :=
  let cs := s.data
  if 12 < cs.length then cs.drop (cs.length - 12)
  else List.replicate (12 - cs.length) '0' ++ cs

/-- `struct.pack` `'6s'` semantics: truncate to 6 bytes, or pad with null
bytes. The 12 ASCII digit bytes of the phone string are silently truncated
to their FIRST six bytes here. -/
def pack6 (bs : List Nat) : List Nat :=
  bs.take 6 ++ List.replicate (6 - bs.length) 0

/-- `Message.encode` (lines 67–128): header `msg_id(2) ∥ body_attr(2) ∥
phone(6, ASCII, '6s'-truncated) ∥ serial(2) ∥ pkg_info(2) = 0`, optional
4 sub-package bytes, body, XOR checksum, escape, 0x7e framing. -/
def encode (m : Message) : List Nat :=
  let phone_bytes := (phone_str12 m.phone_no).map Char.toNat
  let header :=
    u16be m.msg_id ++ u16be (get_body_attr m) ++ pack6 phone_bytes ++
      u16be m.msg_serial_no ++ u16be 0
  let header2 :=
    match m.is_subpackage, m.subpackage_info with
    | true, some p => header ++ u16be p.1 ++ u16be p.2
    | _, _ => header
  let msg_data := header2 ++ m.body
  0x7e :: apply_escape_rules (msg_data ++ [calculate_checksum msg_data]) ++ [0x7e]

/-- Hex digit rendering used by the `''.join(f'[b:02x]').upper()` fallbacks. -/
def hexUpper (n : Nat) : Char :=
  if n < 10 then Char.ofNat (0x30 + n) else Char.ofNat (0x37 + n)

/-- `phone_bcd.decode('ascii')` with the uppercase-hex fallback of
`Message.decode` lines 220–237: ASCII decode succeeds iff every byte is
below 128, otherwise the bytes are rendered as uppercase hex. -/
def ascii_or_hex (bs : List Nat) : String :=
  if bs.all (fun b => b < 128) then String.mk (bs.map Char.ofNat)
  else String.mk (bs.flatMap (fun b => [hexUpper (b / 16), hexUpper (b % 16)]))

/-- The header/body extraction of `Message.decode` (lines 176–292) on the
checksum-stripped unescaped payload `msg_data` (length ≥ 2 guaranteed by
the caller).  Faithful to the source: `body_attr`, phone, serial fall back
to defaults when `msg_data` is short; `header_len` is 12 (the code's
"standard header length", although `encode` writes 14 header bytes); the
sub-package pair, when the flag is set and 4 bytes exist, is read at offset
`header_len`. -/
def decode_header (msg_data : List Nat) : Message :=
  let msg_id := readU16 msg_data 0
  let body_attr := if 4 ≤ msg_data.length then readU16 msg_data 2 else 0
  let phone_bcd :=
    if 10 ≤ msg_data.length then (msg_data.drop 4).take 6
    else [0x30, 0x30, 0x30, 0x30, 0x30, 0x30]
  let msg_serial_no := if 12 ≤ msg_data.length then readU16 msg_data 10 else 0
  let phone_no := ascii_or_hex phone_bcd
  let is_subpackage : Bool := (body_attr &&& 0x2000) != 0
  let encrypted : Bool := (body_attr &&& 0x400) != 0
  let header_len := if msg_data.length < 12 then msg_data.length else 12
  if is_subpackage ∧ ¬ msg_data.length < header_len + 4 then
    { msg_id := msg_id, phone_no := phone_no,
      body := msg_data.drop (header_len + 4), msg_serial_no := msg_serial_no,
      is_subpackage := is_subpackage, encrypted := encrypted,
      subpackage_info :=
        some (readU16 msg_data header_len, readU16 msg_data (header_len + 2)) }
  else
    { msg_id := msg_id, phone_no := phone_no,
      body := msg_data.drop header_len, msg_serial_no := msg_serial_no,
      is_subpackage := is_subpackage, encrypted := encrypted,
      subpackage_info := none }

/-- `Message.decode` (lines 130–292).  Errors exactly on: missing 0x7e
framing (line 146), fewer than 2 bytes after unescaping (line 164), fewer
than 2 bytes of `msg_data` after stripping the checksum byte (line 184).
A checksum mismatch is only logged as a warning (lines 172–174) and
decoding continues. -/
def decode (data : List Nat) : Except String Message :=
  if data.head? = some 0x7e ∧ data.getLast? = some 0x7e then
    if (remove_escape_rules ((data.drop 1).dropLast)).length < 2 then
      Except.error "Message too short after unescaping"
    else if (remove_escape_rules ((data.drop 1).dropLast)).dropLast.length < 2 then
      Except.error "Message data too short"
    else
      Except.ok (decode_header
        (remove_escape_rules ((data.drop 1).dropLast)).dropLast)
  else Except.error "Invalid message framing: must start and end with 0x7e"

/-- Whether `Message.decode` raises. -/
def decode_fails (data : List Nat) : Bool :=
  match decode data with
  | Except.error _ => true
  | Except.ok _ => false

/-- **C1.** `decode (encode f) = f` FAILS.  For the valid §6 frame
`msg_id = 0x0002, device_id = "123456789012", body = [], serial = 0`:
`encode` writes the device id as ASCII digit bytes truncated by `'6s'` to
the FIRST six digits (not six BCD bytes), and writes a 14-byte header
(including the two `pkg_info` bytes), while `decode` assumes a 12-byte
header — so the decoded frame carries `phone_no = "123456"` (not
`"123456789012"`) and a body of two stray zero bytes (the `pkg_info`
field) instead of the empty body. -/
theorem C1_roundtrip_bug :
    decode (encode
        { msg_id := 0x0002, phone_no := "123456789012", body := [],
          msg_serial_no := 0, is_subpackage := false, encrypted := false,
          subpackage_info := none }) =
      Except.ok
        { msg_id := 0x0002, phone_no := "123456", body := [0, 0],
          msg_serial_no := 0, is_subpackage := false, encrypted := false,
          subpackage_info := none } ∧
    ("123456" : String) ≠ "123456789012" := by
  constructor
  · rfl
  · decide

/-- **C4 counterexample.** The claim "for any valid encoded frame with one
non-framing interior byte flipped, decode must reject it (strict checksum
mode is the default)" is false.  This frame is `encode` of the C1 heartbeat
frame with the byte at index 12 flipped from 0 to 1 (so the trailing
checksum byte 5 disagrees with the recomputed XOR 4), yet `decode` returns
a message: the mismatch is only logged (`message.py` lines 172–174). -/
theorem C4_checksum_not_strict :
    decode [0x7e, 0, 2, 0, 0, 49, 50, 51, 52, 53, 54, 0, 1, 0, 0, 5, 0x7e] =
      Except.ok
        { msg_id := 0x0002, phone_no := "123456", body := [0, 0],
          msg_serial_no := 1, is_subpackage := false, encrypted := false,
          subpackage_info := none } := by
  rfl

/-- **C4 (amended).** `decode` fails exactly when the input does not start
and end with 0x7e, or when fewer than 3 bytes remain after unescaping the
interior (2 bytes are demanded after unescaping, and another 2 after the
checksum byte is stripped — not the claimed 12-byte minimum header).  A
dangling 0x7d never fails (`remove_escape_rules` is total, C10), and a
checksum mismatch does not fail: decoding is permissive, not strict. -/
theorem C4_decode_error_iff (data : List Nat) :
    decode_fails data = true ↔
      ¬ (data.head? = some 0x7e ∧ data.getLast? = some 0x7e) ∨
        (remove_escape_rules ((data.drop 1).dropLast)).length < 3 := by
  by_cases hf : data.head? = some 0x7e ∧ data.getLast? = some 0x7e
  · have hlen := List.length_dropLast (remove_escape_rules (data.tail.dropLast))
    by_cases h2 : (remove_escape_rules (data.tail.dropLast)).length < 2
    · simp [decode_fails, decode, List.drop_one, hf, h2]
      omega
    · by_cases h3 :
          (remove_escape_rules (data.tail.dropLast)).dropLast.length < 2
      · rw [hlen] at h3
        simp [decode_fails, decode, List.drop_one, hf, h2, h3]
        omega
      · rw [hlen] at h3
        simp [decode_fails, decode, List.drop_one, hf, h2, h3]
        omega
  · simp [decode_fails, decode, hf]

/-! ## Gateway (`src/converter.py`) -/

/-- `bytearray.find(b'\x7e')`: index of the first 0x7e, if any. -/
def find_7e : List Nat → Option Nat
  | [] => none
  | b :: rest => if b = 0x7e then some 0 else (find_7e rest).map (· + 1)

/-- `JT808Server._process_buffer` (lines 261–327): while more than 2 bytes
remain — no start marker: clear the buffer and stop; else drop any garbage
before it; no end marker (`find(b'\x7e', 1)`): keep the (unbounded) buffer
for the next recv; else slice out the inclusive `0x7e … 0x7e` span and
loop.  Returns the extracted frames and the retained buffer.  The function
is TOTAL: there is no size check and no `OversizeBuffer` error anywhere on
this path. -/
def process_buffer (buf : List Nat) : List (List Nat) × List Nat :=
  if h : 2 < buf.length then
    match find_7e buf with
    | none => ([], [])
    | some start =>
        let buf1 := buf.drop start
        match find_7e (buf1.drop 1) with
        | none => ([], buf1)
        | some e =>
            let rest := buf1.drop (e + 2)
            let result := process_buffer rest
            (buf1.take (e + 2) :: result.1, result.2)
  else ([], buf)
termination_by buf.length
decreasing_by
  simp only [List.length_drop]
  omega

lemma find_7e_replicate_zero (n : Nat) :
    find_7e (List.replicate n 0) = none := by
  induction n with
  | zero => rfl
  | succ k ih => simp [List.replicate_succ, find_7e, ih]

lemma process_buffer_open_frame (n : Nat) (hn : 2 ≤ n) :
    process_buffer (0x7e :: List.replicate n 0) =
      ([], 0x7e :: List.replicate n 0) := by
  rw [process_buffer]
  rw [dif_pos (by simp only [List.length_cons, List.length_replicate]; omega)]
  simp [find_7e, find_7e_replicate_zero]

/-- **C5 counterexample.** A buffer of 65 601 bytes — a 0x7e start marker
followed by 65 600 filler bytes with no closing marker, hence no complete
frame — is retained in full by the buffer processing: no frame is
extracted, nothing fails, no `OversizeBuffer` exists (the return type of
`process_buffer` has no error case), and the retained buffer exceeds
64 KiB, refuting "the buffer never holds more than 64 KiB". -/
theorem C5_no_oversize_error :
    process_buffer (0x7e :: List.replicate 65600 0) =
      ([], 0x7e :: List.replicate 65600 0) ∧
    65536 < (0x7e :: List.replicate 65600 0).length := by
  refine ⟨process_buffer_open_frame 65600 (by norm_num), ?_⟩
  rw [List.length_cons, List.length_replicate]
  norm_num

/-- **C5 (amended).** Appending never fails and no 64 KiB cap exists: for
every size `n ≥ 2`, a buffer holding a 0x7e start marker and `n`
delimiter-free filler bytes is retained whole by `_process_buffer` (the
session stays up; only socket errors/EOF tear a session down).  A buffer
with no 0x7e at all is instead cleared wholesale. -/
theorem C5_buffer_unbounded (n : Nat) (hn : 2 ≤ n) :
    process_buffer (0x7e :: List.replicate n 0) =
      ([], 0x7e :: List.replicate n 0) :=
  process_buffer_open_frame n hn

/-- Witness for C5 (amended) at `n = 2`. -/
theorem C5_buffer_unbounded_witness :
    2 ≤ 2 ∧
      process_buffer (0x7e :: List.replicate 2 0) =
        ([], 0x7e :: List.replicate 2 0) :=
  ⟨by decide, C5_buffer_unbounded 2 (by decide)⟩

/-- The message-id dispatch of `JT808Server._process_message`
(lines 344–411): for each branch, the `result` argument passed to
`_send_general_response` and the list of publish helpers invoked. -/
def dispatch (msg_id : Nat) : Nat × List String :=
  if msg_id = 0x0002 then (0, ["heartbeat"])
  else if msg_id = 0x0100 then (0, ["registration"])
  else if msg_id = 0x0102 then (0, ["authentication"])
  else if msg_id = 0x0200 then (0, ["location"])
  else if msg_id = 0x0704 then (0, ["batch_location"])
  else if msg_id = 0x0003 then (0, ["logout"])
  else (3, [])

/-- `JT808Server._send_general_response` body building (lines 426–434):
`struct.pack('>HHB', serial, msg_id, result)` — but line 427 overwrites the
`result` argument with 0 ("Force result to 0 (success) during testing")
before packing. -/
def general_response_body (ack_serial ack_id result : Nat) : List Nat :=
  let result := 0
  u16be ack_serial ++ u16be ack_id ++ [result]

/-- **C3.** For an unrecognised `msg_id = 0x0999` (serial 7): the
dispatcher does pass result 3 and invokes no publish helper, but the
general response actually written back carries result byte 0, not 3 —
`_send_general_response` line 427 forces `result = 0`.  The claim's
"result byte equals 3" is refuted; the "publishes no event" half holds. -/
theorem C3_unknown_message_response :
    (dispatch 0x0999).1 = 3 ∧
    (dispatch 0x0999).2 = [] ∧
    general_response_body 7 0x0999 (dispatch 0x0999).1 = [0, 7, 0x09, 0x99, 0] ∧
    (general_response_body 7 0x0999 (dispatch 0x0999).1).getLast? = some 0 := by
  decide

/-- The activity derivation of `_publish_location` (lines 749–754): the
comparand `speed` is the RAW 16-bit wire field — tenths of km/h (the
payload later divides it by 10 to report km/h) — yet it is compared against
20 and 5 directly, with comments claiming km/h. -/
def activity_level (speed : Nat) : String :=
  if 20 < speed then "fast_moving"
  else if 5 < speed then "walking"
  else "resting"

/-- Modelled from the spec's words for comparison (C8): activity from the
actual speed in km/h, i.e. `speed_tenths / 10 > 20` ⟺ `speed_tenths > 200`
and `> 5 km/h` ⟺ `speed_tenths > 50`. -/
def spec_activity_from_tenths (speed_tenths : Nat) : String :=
  if 200 < speed_tenths then "fast_moving"
  else if 50 < speed_tenths then "walking"
  else "resting"

/-- **C8.** The code classifies by the raw tenths value: a report of 30
tenths (3.0 km/h — `resting` per the claim, which puts the walking
threshold at 5 km/h) is labelled `fast_moving`, and 60 tenths (6.0 km/h —
`walking` per the claim) is labelled `fast_moving` as well.  The effective
thresholds are 2.0 and 0.5 km/h, not 20 and 5. -/
theorem C8_activity_thresholds_raw :
    activity_level 30 = "fast_moving" ∧
    spec_activity_from_tenths 30 = "resting" ∧
    activity_level 60 = "fast_moving" ∧
    spec_activity_from_tenths 60 = "walking" := by
  decide

/-- Per-device dual-gate state (`self.device_state[device_id]`,
converter.py line 104). -/
structure DevState where
  lat : ℚ
  lon : ℚ
  last_pub_time : ℚ
  activity : String
  deriving DecidableEq, Repr

/-- `self.thresholds` with the configuration defaults (lines 107–120):
fast 5 s / 5 m, walking 60 s / 10 m, resting 300 s / 15 m;
`(interval, distance)`. -/
def default_thresholds (activity : String) : ℚ × ℚ :=
  if activity = "fast_moving" then (5, 5)
  else if activity = "walking" then (60, 10)
  else (300, 15)

/-- The dual-gating logic of `_publish_location` (lines 749–826), with the
haversine `_calculate_distance` abstracted as `dist` (the gate's decision
does not depend on it).  Faithful to the source: missing state is
initialised with the CURRENT coordinates and `last_pub_time = 0`
(lines 758–764); `should_publish` starts `True` (line 772); when both
thresholds are met it is set to `True` again (line 794); the else branch
(lines 795–804) ONLY LOGS — it never sets `should_publish = False`;
coordinates are always updated (lines 806–811) and `last_pub_time` when
publishing (lines 813–815). -/
def location_gate (dist : ℚ → ℚ → ℚ → ℚ → ℚ) (throttle_duplicates : Bool)
    (st : Option DevState) (now lat lon : ℚ) (speed : Nat) :
    Bool × DevState :=
  let activity := activity_level speed
  let st0 : DevState :=
    match st with
    | none => { lat := lat, lon := lon, last_pub_time := 0, activity := activity }
    | some s => s
  let p := default_thresholds activity
  let min_interval := p.1
  let min_distance := p.2
  let should_publish := true
  let should_publish :=
    if throttle_duplicates then
      let time_diff := now - st0.last_pub_time
      let distance := dist st0.lat st0.lon lat lon
      if min_interval ≤ time_diff ∧ min_distance ≤ distance then true
      else should_publish
    else should_publish
  let st1 := { st0 with lat := lat, lon := lon, activity := activity }
  let st2 := if should_publish then { st1 with last_pub_time := now } else st1
  (should_publish, st2)

/-- **C2.** The dual gate never suppresses: for EVERY distance function,
throttle setting, prior state, wall-clock time, position and speed, the
gate publishes.  The `else` branch of the threshold test only logs
"Throttling position … threshold(s) not met" and never clears
`should_publish`, so `if not should_publish: return` (line 825) is
unreachable — refuting "publish iff dt ≥ time_threshold[activity] AND
dx ≥ distance_threshold[activity]" (two reports 0 s and 0 m apart are both
published). -/
theorem C2_gate_never_suppresses (dist : ℚ → ℚ → ℚ → ℚ → ℚ)
    (throttle_duplicates : Bool) (st : Option DevState)
    (now lat lon : ℚ) (speed : Nat) :
    (location_gate dist throttle_duplicates st now lat lon speed).1 = true := by
  simp only [location_gate]
  split
  · split <;> rfl
  · rfl

/-- `_publish_registration`'s debounce (lines 584–651), at the level of the
server-wide `registration_cache` (a key set of device ids, line 129).
Publishing requires body length ≥ 32 (early return, line 584) and ≥ 37 —
`message.body[36]` (line 610) raises `IndexError` for shorter bodies,
caught at line 655 BEFORE the cache write — and that the device is not yet
in the cache; the cache is updated regardless of publishing
(lines 629–633). -/
def publish_registration (cache : List String) (device_id : String)
    (body : List Nat) : Bool × List String :=
  if body.length < 32 then (false, cache)
  else if body.length < 37 then (false, cache)
  else
    (!(cache.contains device_id),
     if cache.contains device_id then cache else device_id :: cache)

/-- `_close_client` (lines 516–535): publishes an offline status and
deletes the socket entry, but never touches `registration_cache` — session
teardown leaves the registration one-shot set.  Modelled as the identity on
the cache. -/
def close_client_registration_cache (cache : List String) : List String :=
  cache

/-- **C6.** The registration one-shot is per DEVICE for the server's
lifetime, not per session: after device `123456789012` registers in one
session (published) and the session is closed, the FIRST registration of
the device's next session is suppressed — refuting "the first registration
of the session is published (when its body parses)".  The comments at
converter.py lines 622–626 claim per-session scope, but no code path
clears `registration_cache` on session close. -/
theorem C6_registration_not_per_session :
    (publish_registration [] "123456789012" (List.replicate 45 0)).1 = true ∧
    (publish_registration
        (close_client_registration_cache
          (publish_registration [] "123456789012" (List.replicate 45 0)).2)
        "123456789012" (List.replicate 45 0)).1 = false := by
  decide

/-- Per-device status cache entry (`self.status_cache`, line 126). -/
structure StatusCache where
  status : String
  timestamp : ℚ
  deriving DecidableEq, Repr

/-- `_publish_status` (lines 1117–1181).  No cache: publish.  Same status
as cached: suppressed in BOTH sub-branches (the TTL test at line 1139 and
its else both end in `should_publish = False`).  Changed status: `offline`
publishes immediately (line 1149); `online` within 5 s of a cached
`offline` is suppressed (anti-flap, lines 1152–1154); otherwise publish.
The cache is overwritten with `(status, now)` regardless (lines 1156–1160). -/
def publish_status (status_ttl : ℚ) (cache : Option StatusCache) (now : ℚ)
    (status : String) : Bool × StatusCache :=
  let should : Bool :=
    match cache with
    | none => true
    | some c =>
        if c.status = status then
          if status = "online" ∧ now - c.timestamp < status_ttl then false
          else false
        else if status = "offline" then true
        else if status = "online" ∧ c.status = "offline" ∧
            now - c.timestamp < 5 then false
        else true
  (should, { status := status, timestamp := now })

/-- Folding `_publish_status` over a sequence of `(wall time, status)`
reports for one device, tracking the cache. -/
def state_after (status_ttl : ℚ) :
    Option StatusCache → List (ℚ × String) → Option StatusCache
  | st, [] => st
  | st, e :: rest =>
      state_after status_ttl (some (publish_status status_ttl st e.1 e.2).2) rest

lemma state_after_some_mem (status_ttl : ℚ) (mid : List (ℚ × String)) :
    ∀ c : StatusCache,
      state_after status_ttl (some c) mid = some c ∨
        ∃ e ∈ mid, state_after status_ttl (some c) mid =
          some { status := e.2, timestamp := e.1 } := by
  induction mid with
  | nil => intro c; left; rfl
  | cons e rest ih =>
      intro c
      have step : state_after status_ttl (some c) (e :: rest) =
          state_after status_ttl (some { status := e.2, timestamp := e.1 }) rest := rfl
      rcases ih { status := e.2, timestamp := e.1 } with h | ⟨e', he', h⟩
      · right; exact ⟨e, List.mem_cons_self e rest, by rw [step, h]⟩
      · right; exact ⟨e', List.mem_cons_of_mem e he', by rw [step, h]⟩

/-- **C7.** (1) Anti-flap: in any sequence of binary status reports with
nondecreasing wall times, if an `online` report at time `t` is published
and an `offline` report occurred earlier at time `s`, then `t − s ≥ 5` —
no online status is ever published within 5 s of an offline for the
device.  (2) A transition from a cached `online` to `offline` is always
published immediately. -/
theorem C7_status_antiflap :
    (∀ (status_ttl : ℚ) (st0 : Option StatusCache) (s t : ℚ)
        (mid : List (ℚ × String)),
        (∀ e ∈ mid, e.2 = "online" ∨ e.2 = "offline") →
        (∀ e ∈ mid, s ≤ e.1) →
        (publish_status status_ttl
            (state_after status_ttl st0 ((s, "offline") :: mid)) t "online").1
          = true →
        5 ≤ t - s) ∧
    (∀ (status_ttl : ℚ) (c : StatusCache) (now : ℚ), c.status = "online" →
        (publish_status status_ttl (some c) now "offline").1 = true) := by
  constructor
  · intro status_ttl st0 s t mid hbin hmono hpub
    have hstep : state_after status_ttl st0 ((s, "offline") :: mid) =
        state_after status_ttl (some { status := "offline", timestamp := s }) mid :=
      rfl
    rw [hstep] at hpub
    rcases state_after_some_mem status_ttl mid
        { status := "offline", timestamp := s } with h | ⟨e, he, h⟩
    · rw [h] at hpub
      simp [publish_status] at hpub
      linarith
    · rw [h] at hpub
      rcases hbin e he with h2 | h2 <;> rw [h2] at hpub
      · simp [publish_status] at hpub
      · simp [publish_status] at hpub
        have := hmono e he
        linarith
  · intro status_ttl c now hc
    simp [publish_status, hc]

/-- Witness for C7: instantiates part (1) with the trace
`[(0, offline)]` followed by an online report at `t = 10` (published,
since 10 s have elapsed), and part (2) with a cached online at an
offline report. -/
theorem C7_status_antiflap_witness :
    5 ≤ (10 : ℚ) - 0 ∧
      (publish_status 300 (some { status := "online", timestamp := 0 })
        1 "offline").1 = true :=
  ⟨C7_status_antiflap.1 300 none 0 10 []
      (by simp) (by simp)
      (by norm_num [publish_status, state_after]
          all_goals decide),
   C7_status_antiflap.2 300 { status := "online", timestamp := 0 } 1 rfl⟩

end JT808
